import Mathlib

/-!
Shallow embedding of `beacon_node/network/src/beacon_processor/worker/sync_methods.rs`:
the sync-methods worker of the lighthouse beacon node.  External collaborator types
(block errors, the chain, the duplicate cache) are modelled from the spec's interface
contracts; the worker functions themselves are translated line by line from the source.
Side effects (calls into the chain collaborator, fork-choice runs, messages to the sync
coordinator, channel sends) are recorded in an explicit effect trace; logging and
metrics calls are dropped, as they carry no behaviour visible to any collaborator.
Hashes, epochs, slots, peer ids and chain ids are modelled as `Nat`.
-/

namespace SyncMethods

/-- Modelled from the spec: a block (opaque to this core) exposing a slot, a parent
root and a canonical root, as used by `SignedBeaconBlock` in the source. -/
structure Block where
  slot : Nat
  parent_root : Nat
  canonical_root : Nat
  deriving DecidableEq, Repr

/-- Modelled from the spec: `lighthouse_network::PeerAction`, the enumerated severity
of a peer penalty (the library type is external to this excerpt). -/
inductive PeerAction where
  | Fatal
  | LowToleranceError
  | MidToleranceError
  | HighToleranceError
  deriving DecidableEq, Repr

/-- Modelled from the spec: `beacon_chain::HistoricalBlockError`, the rejection
reasons of the historical (backfill) import, following the section 4.4 taxonomy. -/
inductive HistoricalBlockError where
  | MismatchedBlockRoot (block_root : Nat) (expected_block_root : Nat)
  | InvalidSignature
  | SignatureSet (desc : String)
  | ValidatorPubkeyCacheTimeout
  | NoAnchorInfo
  | IndexOutOfBounds
  | BlockOutOfRange (slot : Nat) (oldest_block_slot : Nat)
  deriving DecidableEq, Repr

/-- Modelled from the spec: `beacon_chain::BeaconChainError`; only the
`HistoricalBlockError` variant is inspected by this core, every other internal
chain error is represented by the `Other` catch-all. -/
inductive BeaconChainError where
  | HistoricalBlockError (e : HistoricalBlockError)
  | Other (desc : String)
  deriving DecidableEq, Repr

/-- Modelled from the spec: `beacon_chain::BlockError`, the forward-import rejection
reasons of section 4.5.  The variants this core matches on are explicit; every other
rejection (structurally invalid block, bad signature, ...) is the `Other` catch-all,
which is exactly how the source's final match arm treats them. -/
inductive BlockError where
  | ParentUnknown (block : Block)
  | BlockIsAlreadyKnown
  | FutureSlot (present_slot : Nat) (block_slot : Nat)
  | WouldRevertFinalizedSlot (block_slot : Nat) (finalized_slot : Nat)
  | GenesisBlock
  | BeaconChainError (e : SyncMethods.BeaconChainError)
  | Other (desc : String)
  deriving DecidableEq, Repr

/-- Modelled from the spec: `beacon_chain::ChainSegmentResult`, the chain
collaborator's report for a forward segment import. -/
inductive ChainSegmentResult where
  | Successful (imported_blocks : Nat)
  | Failed (imported_blocks : Nat) (error : BlockError)
  deriving DecidableEq, Repr

/-- Returned when a chain segment import fails (source lines 26-32). -/
structure ChainSegmentFailed where
  /-- To be displayed in logs. -/
  message : String
  /-- Used to penalize peers. -/
  peer_action : Option PeerAction
  deriving DecidableEq, Repr

/-- Id associated to a block processing request, either a batch or a single block
(source lines 15-24). -/
inductive ProcessId where
  | RangeBatchId (chain_id : Nat) (epoch : Nat)
  | BackSyncBatchId (epoch : Nat)
  | ParentLookup (peer_id : Nat) (chain_head : Nat)
  deriving DecidableEq, Repr

/-- Modelled from the spec: `sync::BatchProcessResult`, the `ImportOutcome` of the
spec carried in the coordinator message. -/
inductive BatchProcessResult where
  | Success (non_empty : Bool)
  | Failed (imported_blocks : Bool) (peer_action : Option PeerAction)
  deriving DecidableEq, Repr

/-- Modelled from the spec: `sync::manager::SyncRequestType`, the tag matching a
coordinator message to its pending batch. -/
inductive SyncRequestType where
  | RangeSync (epoch : Nat) (chain_id : Nat)
  | BackFillSync (epoch : Nat)
  deriving DecidableEq, Repr

/-- Modelled from the spec: the messages this core sends to the sync coordinator. -/
inductive SyncMessage where
  | BatchProcessed (sync_type : SyncRequestType) (result : BatchProcessResult)
  | ParentLookupFailed (peer_id : Nat) (chain_head : Nat)
  deriving DecidableEq, Repr

/-- Modelled from the spec: the future-slot tolerance window, a constant of the
surrounding worker module (not part of this excerpt).  The classifier's verdict does
not depend on its value; in the source it only selects the log severity. -/
def FUTURE_SLOT_TOLERANCE : Nat := 1

/-- Modelled from the spec: the chain collaborator contract of section 6, as an
oracle record.  Each field gives the collaborator's response to the corresponding
call; the worker treats those calls as blocking and opaque. -/
structure Chain where
  process_chain_segment : List Block → ChainSegmentResult
  import_historical_block_batch : List Block → Except BeaconChainError Nat
  process_block : Block → Except BlockError Nat
  fork_choice : Except String Unit

deriving instance DecidableEq for Except

/-- One observable side effect of the worker: a call into the chain collaborator,
a fork-choice run, a coordinator message, or a channel send. -/
inductive Effect where
  | ChainSegmentCall (blocks : List Block)
  | HistoricalCall (blocks : List Block)
  | ProcessBlockCall (block : Block)
  | ForkChoiceCall
  | SyncMsg (msg : SyncMessage)
  | ReprocessSent (block_root : Nat)
  | ResultSent (result : Except BlockError Nat)
  deriving DecidableEq, Repr

/-- Helper function to handle a `BlockError` from `process_chain_segment`
(source lines 369-455).  In the `FutureSlot` arm the source first branches on
`present_slot + FUTURE_SLOT_TOLERANCE >= block_slot` purely to choose the log
severity; both branches fall through to the same rejection, so the log-only
branch is dropped here together with the other log statements. -/
def handle_failed_chain_segment (error : BlockError) : Except ChainSegmentFailed Unit :=
  match error with
  | .ParentUnknown block =>
      -- blocks should be sequential and all parents should exist
      Except.error
        { message := "Block has an unknown parent: " ++ toString block.parent_root,
          -- Peers are faulty if they send non-sequential blocks.
          peer_action := some PeerAction.LowToleranceError }
  | .BlockIsAlreadyKnown =>
      -- This can happen for many reasons. Head sync's can download multiples and parent
      -- lookups can download blocks before range sync
      Except.ok ()
  | .FutureSlot present_slot block_slot =>
      Except.error
        { message := "Block with slot " ++ toString block_slot ++
            " is higher than the current slot " ++ toString present_slot,
          -- Peers are faulty if they send blocks from the future.
          peer_action := some PeerAction.LowToleranceError }
  | .WouldRevertFinalizedSlot _ _ =>
      Except.ok ()
  | .GenesisBlock =>
      Except.ok ()
  | .BeaconChainError e =>
      Except.error
        { message := "Internal error whilst processing block: " ++ reprStr e,
          -- Do not penalize peers for internal errors.
          peer_action := none }
  | .Other desc =>
      Except.error
        { message := "Peer sent invalid block. Reason: " ++ desc,
          -- Do not penalize peers for internal errors.
          peer_action := none }

/-- The backfill error classification: the body of the `let err = match error ...`
expression inside `process_backfill_blocks` (source lines 254-345), extracted as a
named function. -/
def backfill_error_to_failure (error : BeaconChainError) : ChainSegmentFailed :=
  match error with
  -- Handle the historical block errors specifically
  | .HistoricalBlockError e =>
      match e with
      | .MismatchedBlockRoot _ _ =>
          { message := "mismatched_block_root",
            -- The peer is faulty if they send blocks with bad roots.
            peer_action := some PeerAction.LowToleranceError }
      | .InvalidSignature | .SignatureSet _ =>
          { message := "invalid_signature",
            -- The peer is faulty if they bad signatures.
            peer_action := some PeerAction.LowToleranceError }
      | .ValidatorPubkeyCacheTimeout =>
          { message := "pubkey_cache_timeout",
            -- This is an internal error, do not penalize the peer.
            peer_action := none }
      | .NoAnchorInfo =>
          { message := "no_anchor_info",
            -- There is no need to do a historical sync, this is not a fault of the peer.
            peer_action := none }
      | .IndexOutOfBounds =>
          { message := "logic_error",
            -- This should never occur, don't penalize the peer.
            peer_action := none }
      | .BlockOutOfRange _ _ =>
          { message := "unexpected_error",
            -- This should never occur, don't penalize the peer.
            peer_action := none }
  | .Other desc =>
      { message := desc,
        -- This is an internal error, don't penalize the peer.
        peer_action := none }

/-- Runs fork-choice on a given chain (source lines 351-367).  Both arms of the
source's match only log, so the recorded effect is the same either way. -/
def run_fork_choice (chain : Chain) : List Effect :=
  match chain.fork_choice with
  | Except.ok _ => [Effect.ForkChoiceCall]
  | Except.error _ => [Effect.ForkChoiceCall]

/-- Helper function to process blocks batches which only consumes the chain and
blocks to process (source lines 207-235). -/
def process_blocks (chain : Chain) (downloaded_blocks : List Block) :
    (Nat × Except ChainSegmentFailed Unit) × List Effect :=
  let blocks := downloaded_blocks
  match chain.process_chain_segment blocks with
  | ChainSegmentResult.Successful imported_blocks =>
      if imported_blocks > 0 then
        -- Batch completed successfully with at least one block, run fork choice.
        ((imported_blocks, Except.ok ()),
          Effect.ChainSegmentCall blocks :: run_fork_choice chain)
      else
        ((imported_blocks, Except.ok ()), [Effect.ChainSegmentCall blocks])
  | ChainSegmentResult.Failed imported_blocks error =>
      let r := handle_failed_chain_segment error
      if imported_blocks > 0 then
        ((imported_blocks, r),
          Effect.ChainSegmentCall blocks :: run_fork_choice chain)
      else
        ((imported_blocks, r), [Effect.ChainSegmentCall blocks])

/-- Helper function to process backfill block batches which only consumes the chain
and blocks to process (source lines 237-349). -/
def process_backfill_blocks (chain : Chain) (blocks : List Block) :
    (Nat × Except ChainSegmentFailed Unit) × List Effect :=
  match chain.import_historical_block_batch blocks with
  | Except.ok imported_blocks =>
      ((imported_blocks, Except.ok ()), [Effect.HistoricalCall blocks])
  | Except.error error =>
      let err := backfill_error_to_failure error
      ((0, Except.error err), [Effect.HistoricalCall blocks])

/-- Attempt to import the chain segment (`blocks`) to the beacon chain, informing
the sync thread if more blocks are needed to process it (source lines 102-205). -/
def process_chain_segment (chain : Chain) (process_id : ProcessId)
    (downloaded_blocks : List Block) : List Effect :=
  match process_id with
  -- this a request from the range sync
  | ProcessId.RangeBatchId chain_id epoch =>
      let sent_blocks := downloaded_blocks.length
      let pr := process_blocks chain downloaded_blocks
      let result :=
        match pr.1 with
        | (_, Except.ok _) => BatchProcessResult.Success (decide (sent_blocks > 0))
        | (imported_blocks, Except.error e) =>
            BatchProcessResult.Failed (decide (imported_blocks > 0)) e.peer_action
      let sync_type := SyncRequestType.RangeSync epoch chain_id
      pr.2 ++ [Effect.SyncMsg (SyncMessage.BatchProcessed sync_type result)]
  -- this a request from the Backfill sync
  | ProcessId.BackSyncBatchId epoch =>
      let sent_blocks := downloaded_blocks.length
      let pr := process_backfill_blocks chain downloaded_blocks
      let result :=
        match pr.1 with
        | (_, Except.ok _) => BatchProcessResult.Success (decide (sent_blocks > 0))
        | (_, Except.error e) =>
            BatchProcessResult.Failed false e.peer_action
      let sync_type := SyncRequestType.BackFillSync epoch
      pr.2 ++ [Effect.SyncMsg (SyncMessage.BatchProcessed sync_type result)]
  -- this is a parent lookup request from the sync manager
  | ProcessId.ParentLookup peer_id chain_head =>
      -- parent blocks are ordered from highest slot to lowest, so we need to process in
      -- reverse
      let pr := process_blocks chain downloaded_blocks.reverse
      match pr.1 with
      | (_, Except.error _) =>
          pr.2 ++ [Effect.SyncMsg (SyncMessage.ParentLookupFailed peer_id chain_head)]
      | (_, Except.ok _) => pr.2

/-- Modelled from the spec: the Duplicate Guard (`DuplicateCache`), represented by
its observable state, the set of block roots currently claimed.
`check_and_insert` is the atomic `claim(block_id) -> Option<Handle>`: it returns
the handle (the claimed root) together with the updated cache state, or `none`
when the root is already claimed. -/
def check_and_insert (cache : List Nat) (block_root : Nat) :
    Option (Nat × List Nat) :=
  if block_root ∈ cache then none
  else some (block_root, block_root :: cache)

/-- Attempt to process a block received from a direct RPC request, returning the
processing result on the `result_tx` channel (source lines 34-100).  Returns the
duplicate-cache state after the call together with the effect trace; the channel
sends are recorded as effects (a failed send is only logged in the source). -/
def process_rpc_block (chain : Chain) (duplicate_cache : List Nat) (block : Block) :
    List Nat × List Effect :=
  let block_root := block.canonical_root
  -- Checks if the block is already being imported through another source
  match check_and_insert duplicate_cache block_root with
  | some (handle, cache) =>
      let block_result := chain.process_block block
      let reprocess_effects :=
        match block_result with
        | Except.ok root => [Effect.ReprocessSent root]
        | Except.error _ => []
      -- Drop the handle to remove the entry from the cache
      (cache.erase handle,
        Effect.ProcessBlockCall block :: reprocess_effects ++
          [Effect.ResultSent block_result])
  | none =>
      -- Here, we assume that the block will eventually be imported and
      -- send a `BlockIsAlreadyKnown` message to sync.
      (duplicate_cache,
        [Effect.ResultSent (Except.error BlockError.BlockIsAlreadyKnown)])

/-! ### Observation helpers over effect traces -/

/-- The `(Ok/Err, peer_action)` shape of a classifier result: `none` for `Ok(())`,
`some pa` for `Err` carrying peer action `pa`. -/
def verdict : Except ChainSegmentFailed Unit → Option (Option PeerAction)
  | Except.ok _ => none
  | Except.error f => some f.peer_action

/-- All messages sent to the sync coordinator in a trace. -/
def syncMsgs (effects : List Effect) : List SyncMessage :=
  effects.filterMap fun eff =>
    match eff with
    | Effect.SyncMsg m => some m
    | _ => none

/-- All `BatchProcessed` outcomes sent to the sync coordinator in a trace. -/
def batchResults (effects : List Effect) : List BatchProcessResult :=
  effects.filterMap fun eff =>
    match eff with
    | Effect.SyncMsg (SyncMessage.BatchProcessed _ r) => some r
    | _ => none

/-- The first `BatchProcessed` outcome of a trace, if any. -/
def batchOutcome (effects : List Effect) : Option BatchProcessResult :=
  (batchResults effects).head?

/-- The arguments of all forward segment-import calls into the chain in a trace. -/
def chainCalls (effects : List Effect) : List (List Block) :=
  effects.filterMap fun eff =>
    match eff with
    | Effect.ChainSegmentCall bs => some bs
    | _ => none

/-- The arguments of all historical-import calls into the chain in a trace. -/
def historicalCalls (effects : List Effect) : List (List Block) :=
  effects.filterMap fun eff =>
    match eff with
    | Effect.HistoricalCall bs => some bs
    | _ => none

/-- The blocks handed to the chain's single-block import in a trace. -/
def processBlockCalls (effects : List Effect) : List Block :=
  effects.filterMap fun eff =>
    match eff with
    | Effect.ProcessBlockCall b => some b
    | _ => none

/-- The results sent on the single-block response channel in a trace. -/
def resultsSent (effects : List Effect) : List (Except BlockError Nat) :=
  effects.filterMap fun eff =>
    match eff with
    | Effect.ResultSent r => some r
    | _ => none

/-! ### Concrete fixtures -/

/-- A five-block fixture batch, ascending by slot. -/
def b1 : Block := ⟨1, 100, 101⟩

/-- Fixture block at slot 2. -/
def b2 : Block := ⟨2, 101, 102⟩

/-- Fixture block at slot 3. -/
def b3 : Block := ⟨3, 77, 103⟩

/-- Fixture block at slot 4. -/
def b4 : Block := ⟨4, 103, 104⟩

/-- Fixture block at slot 5. -/
def b5 : Block := ⟨5, 104, 105⟩

/-- The five-block fixture batch. -/
def fiveBlocks : List Block := [b1, b2, b3, b4, b5]

/-- A chain oracle whose segment import reports success with zero newly imported
blocks (e.g. every block was already known). -/
def zeroImportChain : Chain :=
  { process_chain_segment := fun _ => ChainSegmentResult.Successful 0,
    import_historical_block_batch := fun _ => Except.ok 0,
    process_block := fun b => Except.ok b.canonical_root,
    fork_choice := Except.ok () }

/-- A chain oracle whose segment import fails at the third block with an unknown
parent after importing two blocks. -/
def fiveChain : Chain :=
  { process_chain_segment := fun _ =>
      ChainSegmentResult.Failed 2 (BlockError.ParentUnknown b3),
    import_historical_block_batch := fun _ => Except.ok 0,
    process_block := fun b => Except.ok b.canonical_root,
    fork_choice := Except.ok () }

/-- A chain oracle for which every call succeeds and imports one block. -/
def okChain : Chain :=
  { process_chain_segment := fun _ => ChainSegmentResult.Successful 1,
    import_historical_block_batch := fun _ => Except.ok 1,
    process_block := fun b => Except.ok b.canonical_root,
    fork_choice := Except.ok () }

/-- A chain oracle whose historical import fails with `NoAnchorInfo`. -/
def noAnchorChain : Chain :=
  { process_chain_segment := fun _ => ChainSegmentResult.Successful 0,
    import_historical_block_batch := fun _ =>
      Except.error (BeaconChainError.HistoricalBlockError HistoricalBlockError.NoAnchorInfo),
    process_block := fun b => Except.ok b.canonical_root,
    fork_choice := Except.ok () }

/-! ### Helper lemmas -/

theorem run_fork_choice_effects (chain : Chain) :
    run_fork_choice chain = [Effect.ForkChoiceCall] := by
  unfold run_fork_choice
  cases chain.fork_choice <;> rfl

theorem process_blocks_spec (chain : Chain) (blocks : List Block) :
    process_blocks chain blocks =
      match chain.process_chain_segment blocks with
      | ChainSegmentResult.Successful n =>
          ((n, Except.ok ()),
            if n > 0 then [Effect.ChainSegmentCall blocks, Effect.ForkChoiceCall]
            else [Effect.ChainSegmentCall blocks])
      | ChainSegmentResult.Failed n e =>
          ((n, handle_failed_chain_segment e),
            if n > 0 then [Effect.ChainSegmentCall blocks, Effect.ForkChoiceCall]
            else [Effect.ChainSegmentCall blocks]) := by
  cases h : chain.process_chain_segment blocks with
  | Successful n =>
      unfold process_blocks
      dsimp only
      rw [h]
      by_cases hn : n > 0 <;> simp [hn, run_fork_choice_effects]
  | Failed n e =>
      unfold process_blocks
      dsimp only
      rw [h]
      by_cases hn : n > 0 <;> simp [hn, run_fork_choice_effects]

theorem process_backfill_blocks_spec (chain : Chain) (blocks : List Block) :
    process_backfill_blocks chain blocks =
      match chain.import_historical_block_batch blocks with
      | Except.ok n => ((n, Except.ok ()), [Effect.HistoricalCall blocks])
      | Except.error e =>
          ((0, Except.error (backfill_error_to_failure e)),
            [Effect.HistoricalCall blocks]) := by
  unfold process_backfill_blocks
  cases chain.import_historical_block_batch blocks <;> rfl

theorem process_blocks_fst (chain : Chain) (blocks : List Block) :
    (process_blocks chain blocks).1 =
      match chain.process_chain_segment blocks with
      | ChainSegmentResult.Successful n => (n, Except.ok ())
      | ChainSegmentResult.Failed n e => (n, handle_failed_chain_segment e) := by
  rw [process_blocks_spec]
  cases chain.process_chain_segment blocks <;> dsimp only

theorem forkChoice_mem_process_blocks (chain : Chain) (blocks : List Block) :
    Effect.ForkChoiceCall ∈ (process_blocks chain blocks).2 ↔
      (process_blocks chain blocks).1.1 > 0 := by
  rw [process_blocks_spec]
  cases chain.process_chain_segment blocks <;> dsimp only <;> split <;> simp_all

theorem chainCalls_process_blocks (chain : Chain) (blocks : List Block) :
    chainCalls (process_blocks chain blocks).2 = [blocks] := by
  rw [process_blocks_spec]
  cases chain.process_chain_segment blocks <;> dsimp only <;> split <;> rfl

theorem syncMsgs_process_blocks (chain : Chain) (blocks : List Block) :
    syncMsgs (process_blocks chain blocks).2 = [] := by
  rw [process_blocks_spec]
  cases chain.process_chain_segment blocks <;> dsimp only <;> split <;> rfl

theorem batchResults_process_blocks (chain : Chain) (blocks : List Block) :
    batchResults (process_blocks chain blocks).2 = [] := by
  rw [process_blocks_spec]
  cases chain.process_chain_segment blocks <;> dsimp only <;> split <;> rfl

theorem process_backfill_blocks_effects (chain : Chain) (blocks : List Block) :
    (process_backfill_blocks chain blocks).2 = [Effect.HistoricalCall blocks] := by
  rw [process_backfill_blocks_spec]
  cases chain.import_historical_block_batch blocks <;> rfl

theorem batchResults_append (xs ys : List Effect) :
    batchResults (xs ++ ys) = batchResults xs ++ batchResults ys := by
  simp [batchResults]

theorem syncMsgs_append (xs ys : List Effect) :
    syncMsgs (xs ++ ys) = syncMsgs xs ++ syncMsgs ys := by
  simp [syncMsgs]

theorem chainCalls_append (xs ys : List Effect) :
    chainCalls (xs ++ ys) = chainCalls xs ++ chainCalls ys := by
  simp [chainCalls]

theorem historicalCalls_append (xs ys : List Effect) :
    historicalCalls (xs ++ ys) = historicalCalls xs ++ historicalCalls ys := by
  simp [historicalCalls]

theorem process_chain_segment_range (chain : Chain) (chain_id epoch : Nat)
    (blocks : List Block) :
    process_chain_segment chain (ProcessId.RangeBatchId chain_id epoch) blocks =
      (process_blocks chain blocks).2 ++
        [Effect.SyncMsg (SyncMessage.BatchProcessed
          (SyncRequestType.RangeSync epoch chain_id)
          (match (process_blocks chain blocks).1 with
            | (_, Except.ok _) => BatchProcessResult.Success (decide (blocks.length > 0))
            | (n, Except.error f) =>
                BatchProcessResult.Failed (decide (n > 0)) f.peer_action))] := rfl

theorem process_chain_segment_backfill (chain : Chain) (epoch : Nat)
    (blocks : List Block) :
    process_chain_segment chain (ProcessId.BackSyncBatchId epoch) blocks =
      (process_backfill_blocks chain blocks).2 ++
        [Effect.SyncMsg (SyncMessage.BatchProcessed
          (SyncRequestType.BackFillSync epoch)
          (match (process_backfill_blocks chain blocks).1 with
            | (_, Except.ok _) => BatchProcessResult.Success (decide (blocks.length > 0))
            | (_, Except.error f) =>
                BatchProcessResult.Failed false f.peer_action))] := rfl

theorem process_chain_segment_parent (chain : Chain) (peer_id chain_head : Nat)
    (blocks : List Block) :
    process_chain_segment chain (ProcessId.ParentLookup peer_id chain_head) blocks =
      (process_blocks chain blocks.reverse).2 ++
        (match (process_blocks chain blocks.reverse).1 with
          | (_, Except.error _) =>
              [Effect.SyncMsg (SyncMessage.ParentLookupFailed peer_id chain_head)]
          | (_, Except.ok _) => []) := by
  rcases h : (process_blocks chain blocks.reverse).1 with ⟨n, r⟩
  unfold process_chain_segment
  dsimp only
  rw [h]
  cases r <;> simp

theorem batchOutcome_dispatch (xs : List Effect) (t : SyncRequestType)
    (r : BatchProcessResult) (h : batchResults xs = []) :
    batchOutcome (xs ++ [Effect.SyncMsg (SyncMessage.BatchProcessed t r)]) = some r := by
  unfold batchOutcome
  rw [batchResults_append, h]
  rfl

theorem batchResults_backfill (chain : Chain) (blocks : List Block) :
    batchResults (process_backfill_blocks chain blocks).2 = [] := by
  rw [process_backfill_blocks_effects]
  rfl

/-! ### Claims -/

/-- Claim C2: the forward Outcome Classifier (`handle_failed_chain_segment`) returns
exactly the verdicts of the section 4.5 table: `ParentUnknown` is `Err` with a
low-tolerance peer action; `BlockIsAlreadyKnown` is `Ok`; `FutureSlot` is `Err` with
a low-tolerance peer action both within and beyond the tolerance window (for all
present and block slots; only the log severity differs in the source);
`WouldRevertFinalizedSlot` and `GenesisBlock` are `Ok`; an internal
`BeaconChainError` is `Err` with no peer action; and every other rejection is `Err`
with no peer action. -/
theorem c2_forward_classifier_table (b : Block) (present_slot block_slot : Nat)
    (block_slot2 finalized_slot : Nat) (e : BeaconChainError) (desc : String) :
    verdict (handle_failed_chain_segment (BlockError.ParentUnknown b)) =
      some (some PeerAction.LowToleranceError) ∧
    verdict (handle_failed_chain_segment BlockError.BlockIsAlreadyKnown) = none ∧
    verdict (handle_failed_chain_segment
      (BlockError.FutureSlot present_slot block_slot)) =
      some (some PeerAction.LowToleranceError) ∧
    verdict (handle_failed_chain_segment
      (BlockError.WouldRevertFinalizedSlot block_slot2 finalized_slot)) = none ∧
    verdict (handle_failed_chain_segment BlockError.GenesisBlock) = none ∧
    verdict (handle_failed_chain_segment (BlockError.BeaconChainError e)) = some none ∧
    verdict (handle_failed_chain_segment (BlockError.Other desc)) = some none :=
  ⟨rfl, rfl, rfl, rfl, rfl, rfl, rfl⟩

/-- Claim C3: the Backfill Importer classifies every backfill-import failure exactly
as the section 4.4 table: a mismatched block root and an invalid signature or
signature-set failure carry a low-tolerance peer action; a validator-pubkey-cache
timeout, missing anchor info, an out-of-bounds index, an out-of-range block slot,
and any other internal chain error carry no peer action. -/
theorem c3_backfill_classifier_table (block_root expected_root : Nat) (sig : String)
    (slot oldest : Nat) (desc : String) :
    (backfill_error_to_failure (BeaconChainError.HistoricalBlockError
      (HistoricalBlockError.MismatchedBlockRoot block_root expected_root))).peer_action =
      some PeerAction.LowToleranceError ∧
    (backfill_error_to_failure (BeaconChainError.HistoricalBlockError
      HistoricalBlockError.InvalidSignature)).peer_action =
      some PeerAction.LowToleranceError ∧
    (backfill_error_to_failure (BeaconChainError.HistoricalBlockError
      (HistoricalBlockError.SignatureSet sig))).peer_action =
      some PeerAction.LowToleranceError ∧
    (backfill_error_to_failure (BeaconChainError.HistoricalBlockError
      HistoricalBlockError.ValidatorPubkeyCacheTimeout)).peer_action = none ∧
    (backfill_error_to_failure (BeaconChainError.HistoricalBlockError
      HistoricalBlockError.NoAnchorInfo)).peer_action = none ∧
    (backfill_error_to_failure (BeaconChainError.HistoricalBlockError
      HistoricalBlockError.IndexOutOfBounds)).peer_action = none ∧
    (backfill_error_to_failure (BeaconChainError.HistoricalBlockError
      (HistoricalBlockError.BlockOutOfRange slot oldest))).peer_action = none ∧
    (backfill_error_to_failure (BeaconChainError.Other desc)).peer_action = none :=
  ⟨rfl, rfl, rfl, rfl, rfl, rfl, rfl, rfl⟩

/-- Claim C9: for every input, each classifier produces either no verdict-bearing
failure at all (`Ok`), a failure with no peer action, or a failure with the
low-tolerance peer action; no classification path of either taxonomy produces any
higher-severity peer action. -/
theorem c9_low_tolerance_only (error : BlockError) (e : BeaconChainError) :
    (verdict (handle_failed_chain_segment error) = none ∨
     verdict (handle_failed_chain_segment error) = some none ∨
     verdict (handle_failed_chain_segment error) =
       some (some PeerAction.LowToleranceError)) ∧
    ((backfill_error_to_failure e).peer_action = none ∨
     (backfill_error_to_failure e).peer_action = some PeerAction.LowToleranceError) := by
  constructor
  · cases error <;> simp [verdict, handle_failed_chain_segment]
  · cases e with
    | HistoricalBlockError he => cases he <;> simp [backfill_error_to_failure]
    | Other desc => simp [backfill_error_to_failure]

/-- Claim C1 counterexample: a one-block range batch for which the chain
collaborator reports zero newly imported blocks (`Successful 0`, e.g. every block
already known) is still reported to the coordinator as `Success true`, so the
outgoing flag is not `true` iff the chain reported at least one durably imported
block. -/
theorem c1_counterexample :
    zeroImportChain.process_chain_segment [b1] = ChainSegmentResult.Successful 0 ∧
    batchOutcome (process_chain_segment zeroImportChain
      (ProcessId.RangeBatchId 0 0) [b1]) =
      some (BatchProcessResult.Success true) :=
  ⟨rfl, rfl⟩

/-- Claim C1 (amended): the boolean carried in the outgoing outcome is: on a range
batch whose failure is classified as a real failure, `imported_blocks` is true iff
the chain reported at least one block imported before the failure; on every success
outcome (range or backfill, including a chain failure that the classifier swallows
as benign) the `Success` payload is true iff the submitted batch was non-empty,
regardless of the chain-reported import count; and on a backfill failure
`imported_blocks` is always false. -/
theorem c1_imported_any_flag (chain : Chain) (chain_id epoch : Nat)
    (blocks : List Block) :
    (∀ n, chain.process_chain_segment blocks = ChainSegmentResult.Successful n →
      batchOutcome (process_chain_segment chain
        (ProcessId.RangeBatchId chain_id epoch) blocks) =
        some (BatchProcessResult.Success (decide (blocks.length > 0)))) ∧
    (∀ n err f, chain.process_chain_segment blocks = ChainSegmentResult.Failed n err →
      handle_failed_chain_segment err = Except.error f →
      batchOutcome (process_chain_segment chain
        (ProcessId.RangeBatchId chain_id epoch) blocks) =
        some (BatchProcessResult.Failed (decide (n > 0)) f.peer_action)) ∧
    (∀ n err, chain.process_chain_segment blocks = ChainSegmentResult.Failed n err →
      handle_failed_chain_segment err = Except.ok () →
      batchOutcome (process_chain_segment chain
        (ProcessId.RangeBatchId chain_id epoch) blocks) =
        some (BatchProcessResult.Success (decide (blocks.length > 0)))) ∧
    (∀ n, chain.import_historical_block_batch blocks = Except.ok n →
      batchOutcome (process_chain_segment chain
        (ProcessId.BackSyncBatchId epoch) blocks) =
        some (BatchProcessResult.Success (decide (blocks.length > 0)))) ∧
    (∀ err, chain.import_historical_block_batch blocks = Except.error err →
      batchOutcome (process_chain_segment chain
        (ProcessId.BackSyncBatchId epoch) blocks) =
        some (BatchProcessResult.Failed false
          (backfill_error_to_failure err).peer_action)) := by
  have hpb := process_blocks_fst chain blocks
  have hbf := process_backfill_blocks_spec chain blocks
  refine ⟨?_, ?_, ?_, ?_, ?_⟩
  · intro n hn
    rw [process_chain_segment_range,
      batchOutcome_dispatch _ _ _ (batchResults_process_blocks chain blocks),
      hpb, hn]
  · intro n err f hn hf
    rw [process_chain_segment_range,
      batchOutcome_dispatch _ _ _ (batchResults_process_blocks chain blocks),
      hpb, hn]
    dsimp only
    rw [hf]
  · intro n err hn hf
    rw [process_chain_segment_range,
      batchOutcome_dispatch _ _ _ (batchResults_process_blocks chain blocks),
      hpb, hn]
    dsimp only
    rw [hf]
  · intro n hn
    rw [process_chain_segment_backfill,
      batchOutcome_dispatch _ _ _ (batchResults_backfill chain blocks),
      hbf, hn]
  · intro err hn
    rw [process_chain_segment_backfill,
      batchOutcome_dispatch _ _ _ (batchResults_backfill chain blocks),
      hbf, hn]

/-- Claim C1 witness: the amended statement applied to the zero-import chain on a
one-block batch. -/
theorem c1_witness :
    batchOutcome (process_chain_segment zeroImportChain
      (ProcessId.RangeBatchId 0 0) [b1]) =
      some (BatchProcessResult.Success true) :=
  (c1_imported_any_flag zeroImportChain 0 0 [b1]).1 0 rfl

/-- Claim C4: in the Segment Importer, a fork-choice run appears in the effect
trace iff the chain collaborator reported a positive imported-block count, on the
success branch and on the failure branch alike; and in the concrete five-block
scenario failing at block 3 with an unknown parent after two imports, the importer
returns count 2 with a low-tolerance failure, fork choice is run, and the
coordinator receives `Failed` with `imported_blocks = true` and the low-tolerance
action. -/
theorem c4_fork_choice_iff_progress (chain : Chain) (blocks : List Block) (n : Nat) :
    ((chain.process_chain_segment blocks = ChainSegmentResult.Successful n ∨
      ∃ err, chain.process_chain_segment blocks = ChainSegmentResult.Failed n err) →
      (Effect.ForkChoiceCall ∈ (process_blocks chain blocks).2 ↔ n > 0)) ∧
    (process_blocks fiveChain fiveBlocks).1.1 = 2 ∧
    (process_blocks fiveChain fiveBlocks).1.2 =
      Except.error { message := "Block has an unknown parent: 77",
                     peer_action := some PeerAction.LowToleranceError } ∧
    Effect.ForkChoiceCall ∈ (process_blocks fiveChain fiveBlocks).2 ∧
    batchOutcome (process_chain_segment fiveChain
      (ProcessId.RangeBatchId 0 0) fiveBlocks) =
      some (BatchProcessResult.Failed true (some PeerAction.LowToleranceError)) := by
  refine ⟨?_, rfl, rfl, by decide, rfl⟩
  intro h
  rw [forkChoice_mem_process_blocks, process_blocks_fst]
  rcases h with h | ⟨err, h⟩ <;> rw [h]

/-- Claim C4 witness: the fork-choice iff applied to the five-block fixture, whose
chain reports two imports before the failure. -/
theorem c4_witness :
    Effect.ForkChoiceCall ∈ (process_blocks fiveChain fiveBlocks).2 ↔ 2 > 0 :=
  (c4_fork_choice_iff_progress fiveChain fiveBlocks 2).1
    (Or.inr ⟨BlockError.ParentUnknown b3, rfl⟩)

/-- Claim C5: the Backfill Importer never invokes head recomputation: whatever the
chain's historical-import outcome, the effect trace of `process_backfill_blocks`,
and that of the dispatcher's whole backfill path, contains no fork-choice run. -/
theorem c5_backfill_no_fork_choice (chain : Chain) (blocks : List Block)
    (epoch : Nat) :
    (process_backfill_blocks chain blocks).2.contains Effect.ForkChoiceCall = false ∧
    (process_chain_segment chain (ProcessId.BackSyncBatchId epoch) blocks).contains
      Effect.ForkChoiceCall = false := by
  have h2 := process_backfill_blocks_effects chain blocks
  constructor
  · rw [h2]
    rfl
  · rw [process_chain_segment_backfill, h2]
    rcases (process_backfill_blocks chain blocks).1 with ⟨n, r⟩
    cases r <;> rfl

/-- Claim C6: the dispatcher hands parent-lookup batches to the chain collaborator
in reversed order and range/backfill batches in the order received: the forward
segment-import calls of a `ParentLookup` trace are exactly `[blocks.reverse]`,
those of a `RangeBatchId` trace exactly `[blocks]`, the historical-import calls of
a `BackSyncBatchId` trace exactly `[blocks]`; in particular the descending batch
`[b3, b2, b1]` is handed over as `[b1, b2, b3]`. -/
theorem c6_parent_lookup_reversed (chain : Chain) (blocks : List Block)
    (chain_id epoch peer_id chain_head : Nat) :
    chainCalls (process_chain_segment chain
      (ProcessId.ParentLookup peer_id chain_head) blocks) = [blocks.reverse] ∧
    chainCalls (process_chain_segment chain
      (ProcessId.RangeBatchId chain_id epoch) blocks) = [blocks] ∧
    historicalCalls (process_chain_segment chain
      (ProcessId.BackSyncBatchId epoch) blocks) = [blocks] ∧
    chainCalls (process_chain_segment okChain
      (ProcessId.ParentLookup 7 9) [b3, b2, b1]) = [[b1, b2, b3]] := by
  refine ⟨?_, ?_, ?_, rfl⟩
  · rw [process_chain_segment_parent, chainCalls_append,
      chainCalls_process_blocks]
    rcases h : (process_blocks chain blocks.reverse).1 with ⟨n, r⟩
    cases r <;> simp [chainCalls]
  · rw [process_chain_segment_range, chainCalls_append, chainCalls_process_blocks]
    simp [chainCalls]
  · rw [process_chain_segment_backfill, historicalCalls_append,
      process_backfill_blocks_effects]
    simp [historicalCalls]

/-- Claim C7: the Single-Block Importer: when the block's identity is already
claimed in the Duplicate Guard, `process_rpc_block` leaves the guard state
unchanged, performs no `process_block` call, and sends exactly the distinguished
`BlockIsAlreadyKnown` error on the response channel; when the claim succeeds, it
calls `process_block` exactly once, sends exactly that call's result on the
response channel, and releases the guard handle afterwards (the guard state
returns to its initial value). -/
theorem c7_duplicate_guard (chain : Chain) (cache : List Nat) (block : Block) :
    (block.canonical_root ∈ cache →
      process_rpc_block chain cache block =
        (cache, [Effect.ResultSent (Except.error BlockError.BlockIsAlreadyKnown)])) ∧
    (block.canonical_root ∉ cache →
      processBlockCalls (process_rpc_block chain cache block).2 = [block] ∧
      resultsSent (process_rpc_block chain cache block).2 =
        [chain.process_block block] ∧
      (process_rpc_block chain cache block).1 = cache) := by
  constructor
  · intro h
    unfold process_rpc_block check_and_insert
    simp [h]
  · intro h
    unfold process_rpc_block check_and_insert
    dsimp only
    rw [if_neg h]
    cases hb : chain.process_block block <;>
      simp [processBlockCalls, resultsSent, hb, List.erase_cons_head]

/-- Claim C7 witness: the guard behaviour at a concrete chain, block and guard
state: root 5 already claimed, and root 5 unclaimed. -/
theorem c7_witness :
    process_rpc_block okChain [5] ⟨1, 0, 5⟩ =
      ([5], [Effect.ResultSent (Except.error BlockError.BlockIsAlreadyKnown)]) ∧
    processBlockCalls (process_rpc_block okChain [] ⟨1, 0, 5⟩).2 = [⟨1, 0, 5⟩] ∧
    (process_rpc_block okChain [] ⟨1, 0, 5⟩).1 = [] :=
  ⟨(c7_duplicate_guard okChain [5] ⟨1, 0, 5⟩).1 (by decide),
   ((c7_duplicate_guard okChain [] ⟨1, 0, 5⟩).2 (by decide)).1,
   ((c7_duplicate_guard okChain [] ⟨1, 0, 5⟩).2 (by decide)).2.2⟩

/-- Claim C8 counterexample: a `ParentLookup` work item whose segment import
succeeds emits no message at all to the sync coordinator, so the dispatcher does
not emit exactly one coordinator message for every origin and block list. -/
theorem c8_counterexample :
    syncMsgs (process_chain_segment okChain (ProcessId.ParentLookup 7 9) [b1]) =
      [] := rfl

/-- Claim C8 (amended): the dispatcher emits exactly one coordinator message for
every `RangeBatchId` and every `BackSyncBatchId` invocation; a `ParentLookup`
invocation emits exactly one message (`ParentLookupFailed`) when the segment
importer fails and none when it succeeds. -/
theorem c8_one_message (chain : Chain) (blocks : List Block)
    (chain_id epoch peer_id chain_head : Nat) :
    (syncMsgs (process_chain_segment chain
      (ProcessId.RangeBatchId chain_id epoch) blocks)).length = 1 ∧
    (syncMsgs (process_chain_segment chain
      (ProcessId.BackSyncBatchId epoch) blocks)).length = 1 ∧
    syncMsgs (process_chain_segment chain
      (ProcessId.ParentLookup peer_id chain_head) blocks) =
      (match (process_blocks chain blocks.reverse).1.2 with
        | Except.ok _ => []
        | Except.error _ =>
            [SyncMessage.ParentLookupFailed peer_id chain_head]) := by
  refine ⟨?_, ?_, ?_⟩
  · rw [process_chain_segment_range, syncMsgs_append, syncMsgs_process_blocks]
    simp [syncMsgs]
  · rw [process_chain_segment_backfill, syncMsgs_append,
      process_backfill_blocks_effects]
    simp [syncMsgs]
  · rw [process_chain_segment_parent, syncMsgs_append, syncMsgs_process_blocks]
    rcases h : (process_blocks chain blocks.reverse).1 with ⟨n, r⟩
    cases r <;> simp [syncMsgs]

/-- Claim C10: on every backfill failure, the Backfill Importer reports an
imported count of exactly zero and the dispatcher sends `Failed` with
`imported_blocks = false` unconditionally, whatever progress the historical import
made before failing. -/
theorem c10_backfill_failure_zero (chain : Chain) (blocks : List Block)
    (epoch : Nat) (err : BeaconChainError)
    (h : chain.import_historical_block_batch blocks = Except.error err) :
    (process_backfill_blocks chain blocks).1.1 = 0 ∧
    batchOutcome (process_chain_segment chain
      (ProcessId.BackSyncBatchId epoch) blocks) =
      some (BatchProcessResult.Failed false
        (backfill_error_to_failure err).peer_action) := by
  have hs := process_backfill_blocks_spec chain blocks
  rw [h] at hs
  constructor
  · rw [hs]
  · rw [process_chain_segment_backfill,
      batchOutcome_dispatch _ _ _ (batchResults_backfill chain blocks), hs]

/-- Claim C10 witness: a backfill batch failing with `NoAnchorInfo` reports count
zero and `Failed false` with no peer action. -/
theorem c10_witness :
    (process_backfill_blocks noAnchorChain [b1]).1.1 = 0 ∧
    batchOutcome (process_chain_segment noAnchorChain
      (ProcessId.BackSyncBatchId 3) [b1]) =
      some (BatchProcessResult.Failed false none) :=
  c10_backfill_failure_zero noAnchorChain [b1] 3
    (BeaconChainError.HistoricalBlockError HistoricalBlockError.NoAnchorInfo) rfl

end SyncMethods
